import Mathlib

/-
Verification development for the iso-8601 crate (src/lib.rs, src/parse/mod.rs).

Shallow embedding conventions:
- The default year type of the crate is i16; year arithmetic in the embedded
  functions is carried out on Int with Rust semantics (`/` is truncating
  division `Int.tdiv`, `%` is truncating remainder `Int.tmod`).  Every year
  computation that can leave the i16 range on the i16 domain — the running
  sum of the num_weeks helper p (from year 26215 upward) and the `year - 1`
  decrements (at the minimum year) — is wrapped explicitly with `wrapI16`
  (release-mode overflow semantics).  Other fields (u8, u16, u32) are
  embedded as Nat, with wrap-around arithmetic made explicit via `% 256`,
  `wrapI16` and friends at exactly the places the Rust code narrows or
  overflows a machine type.
- `unreachable!()` branches (panics) are embedded by returning `Option.none`.
- The float step `(dc as f32 / 7.0).ceil() as u8` in the Ordinal-to-Week
  conversion is embedded as the exact integer ceiling of dc / 7 followed by a
  saturating cast to u8: dc is an i16 value, |dc| < 2^16 is far below the
  2^24 exact range of f32, so the f32 quotient differs from the rational
  dc / 7 by less than 2^-11, while a non-integer rational with denominator 7
  is at distance at least 1/7 from any integer; hence the f32 ceiling equals
  the mathematical ceiling, and the Rust float-to-int cast saturates.
-/

namespace Iso8601

/-- Interpret an Int as a wrapped 16-bit two-complement value (Rust release
mode `as i16` narrowing and i16 overflow). -/
def wrapI16 (x : Int) : Int := (x + 32768) % 65536 - 32768

/-- Rust `as u8` narrowing of an integer value (bit pattern, i.e. mod 256). -/
def toU8 (x : Int) : Nat := (x.emod 256).toNat

/-- Rust float-to-int `as u8` cast of an integral float value: saturating. -/
def satU8 (x : Int) : Nat := if x < 0 then 0 else if 255 < x then 255 else x.toNat

/-- Wrapping u8 multiplication. -/
def u8mul (a b : Nat) : Nat := (a % 256 * (b % 256)) % 256

/-- Wrapping u8 addition. -/
def u8add (a b : Nat) : Nat := (a % 256 + b % 256) % 256

/-- Wrapping u8 subtraction. -/
def u8sub (a b : Nat) : Nat := (a % 256 + 256 - b % 256) % 256

/-- Year::is_leap from src/lib.rs lines 110-113:
`factor(4) && (!factor(100) || factor(400))` with `factor = |x| self % x == 0`. -/
def isLeap (y : Int) : Bool := y.tmod 4 == 0 && (!(y.tmod 100 == 0) || y.tmod 400 == 0)

/-- Year::num_days from src/lib.rs lines 102-104. -/
def numDays (y : Int) : Nat := if isLeap y then 366 else 365

/-- The helper closure p of Year::num_weeks, src/lib.rs line 117:
`|x| (x + x / 4 - x / 100 + x / 400) % 7` with Rust truncating `/` and `%`,
evaluated in the year type itself (default i16): the sum associates as
((x + x/4) - x/100) + x/400 and each step wraps in release mode, which
matters from year 26215 upward on the i16 domain. -/
def pT (x : Int) : Int :=
  (wrapI16 (wrapI16 (wrapI16 (x + x.tdiv 4) - x.tdiv 100) + x.tdiv 400)).tmod 7

/-- Year::num_weeks from src/lib.rs lines 115-119; `self - 1` is i16
subtraction (wraps at the minimum year). -/
def numWeeks (y : Int) : Nat := if pT y = 4 ∨ pT (wrapI16 (y - 1)) = 3 then 53 else 52

/-- YmdDate (src/lib.rs lines 17-22); year is i16, month and day are u8. -/
structure YmdDate where
  year : Int
  month : Nat
  day : Nat
  deriving DecidableEq

/-- WeekDate (src/lib.rs lines 24-29); year is i16, week and day are u8. -/
structure WeekDate where
  year : Int
  week : Nat
  day : Nat
  deriving DecidableEq

/-- OrdinalDate (src/lib.rs lines 31-35); year is i16, day is u16. -/
structure OrdinalDate where
  year : Int
  day : Nat
  deriving DecidableEq

/-- LocalTime (src/lib.rs lines 44-50); hour, minute, second are u8, nanos is u32. -/
structure LocalTime where
  hour : Nat
  minute : Nat
  second : Nat
  nanos : Nat
  deriving DecidableEq

/-- Time (src/lib.rs lines 37-42); tz_offset is i16 minutes.  The field
named `local` in the source is called `localTime` here because `local` is a
reserved word in Lean. -/
structure Time where
  localTime : LocalTime
  tz_offset : Int
  deriving DecidableEq

/-- The month table of Valid for YmdDate (src/lib.rs lines 146-151): length of
the given month, or none for the `_ => return false` arm. -/
def monthLength (leap : Bool) (m : Nat) : Option Nat :=
  if m = 1 ∨ m = 3 ∨ m = 5 ∨ m = 7 ∨ m = 8 ∨ m = 10 ∨ m = 12 then some 31
  else if m = 4 ∨ m = 6 ∨ m = 9 ∨ m = 11 then some 30
  else if m = 2 then some (if leap then 29 else 28)
  else none

/-- Valid for YmdDate (src/lib.rs lines 144-153). -/
def isValidYmd (d : YmdDate) : Bool :=
  decide (1 ≤ d.day) &&
    match monthLength (isLeap d.year) d.month with
    | some len => decide (d.day ≤ len)
    | none => false

/-- Valid for WeekDate (src/lib.rs lines 155-160). -/
def isValidWeek (d : WeekDate) : Bool :=
  decide (1 ≤ d.week) && decide (d.week ≤ numWeeks d.year) &&
  decide (1 ≤ d.day) && decide (d.day ≤ 7)

/-- Valid for OrdinalDate (src/lib.rs lines 162-166). -/
def isValidOrdinal (d : OrdinalDate) : Bool :=
  decide (1 ≤ d.day) && decide (d.day ≤ numDays d.year)

/-- Valid for LocalTime (src/lib.rs lines 168-177). -/
def isValidLocalTime (t : LocalTime) : Bool :=
  decide (t.hour ≤ 24) && decide (t.minute ≤ 59) && decide (t.second ≤ 60) &&
  decide (t.nanos < 1000000000)

/-- Valid for Time (src/lib.rs lines 179-184). -/
def isValidTime (t : Time) : Bool :=
  isValidLocalTime t.localTime &&
  decide (t.tz_offset < 24 * 60) && decide (t.tz_offset > -(24 * 60))

/-- The day-of-year range match of From Ordinal for YmdDate (src/lib.rs lines
232-257), transcribed arm by arm in source order (Rust range patterns are
inclusive, guards tried top down); the `_ => unreachable!()` arm is none. -/
def monthDayFromOrdinal (leap : Bool) (day : Nat) : Option (Nat × Nat) :=
  if 1 ≤ day ∧ day ≤ 31 then some (1, day - 0)
  else if 32 ≤ day ∧ day ≤ 60 ∧ leap = true then some (2, day - 31)
  else if 32 ≤ day ∧ day ≤ 59 then some (2, day - 31)
  else if 61 ≤ day ∧ day ≤ 91 ∧ leap = true then some (3, day - 60)
  else if 60 ≤ day ∧ day ≤ 90 then some (3, day - 59)
  else if 92 ≤ day ∧ day ≤ 121 ∧ leap = true then some (4, day - 91)
  else if 91 ≤ day ∧ day ≤ 120 then some (4, day - 90)
  else if 122 ≤ day ∧ day ≤ 152 ∧ leap = true then some (5, day - 121)
  else if 121 ≤ day ∧ day ≤ 151 then some (5, day - 120)
  else if 153 ≤ day ∧ day ≤ 182 ∧ leap = true then some (6, day - 152)
  else if 152 ≤ day ∧ day ≤ 181 then some (6, day - 151)
  else if 183 ≤ day ∧ day ≤ 213 ∧ leap = true then some (7, day - 182)
  else if 182 ≤ day ∧ day ≤ 212 then some (7, day - 181)
  else if 214 ≤ day ∧ day ≤ 244 ∧ leap = true then some (8, day - 213)
  else if 213 ≤ day ∧ day ≤ 243 then some (8, day - 212)
  else if 245 ≤ day ∧ day ≤ 274 ∧ leap = true then some (9, day - 244)
  else if 244 ≤ day ∧ day ≤ 273 then some (9, day - 243)
  else if 275 ≤ day ∧ day ≤ 305 ∧ leap = true then some (10, day - 274)
  else if 274 ≤ day ∧ day ≤ 304 then some (10, day - 273)
  else if 306 ≤ day ∧ day ≤ 335 ∧ leap = true then some (11, day - 305)
  else if 305 ≤ day ∧ day ≤ 334 then some (11, day - 304)
  else if 336 ≤ day ∧ day ≤ 366 ∧ leap = true then some (12, day - 335)
  else if 335 ≤ day ∧ day ≤ 365 then some (12, day - 334)
  else none

/-- From OrdinalDate for YmdDate (src/lib.rs lines 229-265); none embeds the
panic of the unreachable arm. -/
def ymdFromOrdinal (d : OrdinalDate) : Option YmdDate :=
  (monthDayFromOrdinal (isLeap d.year) d.day).map fun md =>
    { year := d.year, month := md.1, day := md.2 }

/-- The month match of From YmdDate for OrdinalDate (src/lib.rs lines 296-319):
cumulative days before the month, or none for the `_ => unreachable!()` arm. -/
def monthOffset (leap : Bool) (m : Nat) : Option Nat :=
  if m = 1 then some 0
  else if m = 2 then some 31
  else if m = 3 ∧ leap = true then some 60
  else if m = 3 then some 59
  else if m = 4 ∧ leap = true then some 91
  else if m = 4 then some 90
  else if m = 5 ∧ leap = true then some 121
  else if m = 5 then some 120
  else if m = 6 ∧ leap = true then some 152
  else if m = 6 then some 151
  else if m = 7 ∧ leap = true then some 182
  else if m = 7 then some 181
  else if m = 8 ∧ leap = true then some 213
  else if m = 8 then some 212
  else if m = 9 ∧ leap = true then some 244
  else if m = 9 then some 243
  else if m = 10 ∧ leap = true then some 274
  else if m = 10 then some 273
  else if m = 11 ∧ leap = true then some 305
  else if m = 11 then some 304
  else if m = 12 ∧ leap = true then some 335
  else if m = 12 then some 334
  else none

/-- From YmdDate for OrdinalDate (src/lib.rs lines 291-323); none embeds the
panic of the unreachable arm. -/
def ordinalFromYmd (d : YmdDate) : Option OrdinalDate :=
  (monthOffset (isLeap d.year) d.month).map fun off =>
    { year := d.year, day := off + d.day }

/-- From OrdinalDate for WeekDate (src/lib.rs lines 273-289).  The year field
of the result is always the year of the input; there is no rollover into the
previous or next ISO week-numbering year. -/
def weekFromOrdinal (d : OrdinalDate) : WeekDate :=
  let y := (d.year.tmod 100).tmod 28
  let cc := (d.year.tdiv 100).tmod 4
  let c0 := (y + (y - 1).tdiv 4 + 5 * cc - 1).tmod 7
  let c := if c0 > 3 then c0 - 7 else c0
  let dc := wrapI16 (wrapI16 (Int.ofNat d.day) + c)
  { year := d.year
    week := satU8 ((dc + 6).fdiv 7)
    day := toU8 (dc.tmod 7) }

/-- The nested fn weekday_jan1 (src/lib.rs lines 330-334), Gauss day-of-week;
`let y = year - 1` is i16 subtraction (wraps at the minimum year), the inner
sum stays far within i16, and the final `% 7 as u8` narrowing is toU8 (for
negative years the truncating remainder is negative and the cast wraps). -/
def weekdayJan1 (year : Int) : Nat :=
  toU8 ((1 + 5 * ((wrapI16 (year - 1)).tmod 4) + 4 * ((wrapI16 (year - 1)).tmod 100)
          + 6 * ((wrapI16 (year - 1)).tmod 400)).tmod 7)

/-- The nested fn weekday_jan4 (src/lib.rs lines 329-337); the `+ 3` is u8
addition, which wraps at 256 when weekday_jan1 came out as 253-255. -/
def weekdayJan4 (year : Int) : Nat := u8add (weekdayJan1 year) 3 % 7

/-- From WeekDate for OrdinalDate (src/lib.rs lines 325-352).  The expression
`date.week * 7 + date.day - (weekday_jan4(date.year) + 3)` is u8 arithmetic
(wrap-around in release mode), then widened `as u16`. -/
def ordinalFromWeek (d : WeekDate) : OrdinalDate :=
  let day0 := u8sub (u8add (u8mul d.week 7) d.day) (weekdayJan4 d.year + 3)
  let day1 := if day0 < 1 then day0 + numDays (wrapI16 (d.year - 1)) else day0
  let day2 := if day1 > numDays d.year then day1 - numDays d.year else day1
  { year := d.year, day := day2 }

/-- From YmdDate for WeekDate (src/lib.rs lines 267-271), composed through
OrdinalDate. -/
def weekFromYmd (d : YmdDate) : Option WeekDate :=
  (ordinalFromYmd d).map weekFromOrdinal

/-- From WeekDate for YmdDate (src/lib.rs lines 223-227), composed through
OrdinalDate. -/
def ymdFromWeek (d : WeekDate) : Option YmdDate :=
  ymdFromOrdinal (ordinalFromWeek d)

/-- Date sum type (src/lib.rs lines 10-15). -/
inductive Date where
  | YMD (d : YmdDate)
  | Week (d : WeekDate)
  | Ordinal (d : OrdinalDate)
  deriving DecidableEq

/-- Result type of the embedded nom streaming parser for sign (src/parse/mod.rs
lines 29-32): success with remainder and value, incomplete input with a needed
byte count, or an error holding the input at the failure point (nom tags the
failed alternation with the code Alt, per the unit test at line 59). -/
inductive SignResult where
  | ok (rest : List Nat) (val : Int)
  | incomplete (needed : Nat)
  | err (input : List Nat)
  deriving DecidableEq

/-- The byte set searched by the one_of pattern of the sign parser.  The
pattern string holds hyphen-minus, minus sign U+2212 and hyphen U+2010; nom
matches a u8 input item against the UTF-8 BYTES of the pattern string (the
FindToken instance of u8 for str delegates to as_bytes), so the set is the
seven bytes 0x2D, 0xE2 0x88 0x92, 0xE2 0x80 0x90. -/
def signBytes : List Nat := [45, 226, 136, 146, 226, 128, 144]

/-- The sign parser (src/parse/mod.rs lines 29-32): alt of one_of mapped to -1
and the plus character mapped to 1, over a byte slice, nom streaming
semantics: empty input is incomplete, a byte in the one_of set is consumed and
yields -1, a plus byte (0x2B) yields 1, anything else is an error at the
whole input. -/
def sign (input : List Nat) : SignResult :=
  match input with
  | [] => .incomplete 1
  | b :: rest =>
    if b ∈ signBytes then .ok rest (-1)
    else if b = 43 then .ok rest 1
    else .err (b :: rest)

/-- Modelled from the spec: the structured parse error of spec section 7 for
the grammar files src/parse/date.rs, src/parse/time.rs and
src/parse/datetime.rs, which are declared in src/parse/mod.rs but are not
under src: an error carrying the input position at which the match failed, or
an incomplete-input signal. -/
inductive PError where
  | badAt (rest : List Char)
  | needMore (needed : Nat)
  deriving DecidableEq

/-- Modelled from the spec: fixed-width decimal digit runs accumulated by the
repeated multiply-accumulator-by-10-then-add-digit scheme (spec section 4.2,
integer fields, and the buf_to_int helper of src/parse/mod.rs lines 19-27);
non-digit bytes are rejected, exhausted streaming input is incomplete. -/
def takeDigits : Nat → Nat → List Char → Except PError (List Char × Nat)
  | 0, acc, s => .ok (s, acc)
  | _ + 1, _, [] => .error (.needMore 1)
  | n + 1, acc, c :: rest =>
    if c.isDigit then takeDigits n (acc * 10 + (c.toNat - 48)) rest
    else .error (.badAt (c :: rest))

/-- Modelled from the spec: a literal character matcher for the grammar
(spec section 1 treats the combinator substrate as a given capability). -/
def expectChar (c : Char) : List Char → Except PError (List Char)
  | [] => .error (.needMore 1)
  | x :: rest => if x = c then .ok rest else .error (.badAt (x :: rest))

/-- Modelled from the spec: ordered alternation, the first alternative that
succeeds wins (spec section 4.2 tie-breaks). -/
def orElseP (a b : Except PError (List Char × Date)) : Except PError (List Char × Date) :=
  match a with
  | .ok r => .ok r
  | .error _ => b

/-- Modelled from the spec: optional explicit sign before the year of a date
(spec section 4.2): plus maps to +1, and hyphen-minus, the minus sign U+2212
or the hyphen U+2010 map to -1. -/
def parseSignOpt : List Char → Int × List Char
  | [] => (1, [])
  | c :: rest =>
    if c = '+' then (1, rest)
    else if c = '-' ∨ c = '−' ∨ c = '‐' then (-1, rest)
    else (1, c :: rest)

/-- Modelled from the spec: the extended calendar date tail YYYY-MM-DD. -/
def calExt (y : Int) (s : List Char) : Except PError (List Char × Date) := do
  let s ← expectChar '-' s
  let (s, m) ← takeDigits 2 0 s
  let s ← expectChar '-' s
  let (s, d) ← takeDigits 2 0 s
  return (s, Date.YMD ⟨y, m, d⟩)

/-- Modelled from the spec: the extended week date tail YYYY-Www-D. -/
def weekExt (y : Int) (s : List Char) : Except PError (List Char × Date) := do
  let s ← expectChar '-' s
  let s ← expectChar 'W' s
  let (s, w) ← takeDigits 2 0 s
  let s ← expectChar '-' s
  let (s, d) ← takeDigits 1 0 s
  return (s, Date.Week ⟨y, w, d⟩)

/-- Modelled from the spec: the extended ordinal date tail YYYY-DDD. -/
def ordExt (y : Int) (s : List Char) : Except PError (List Char × Date) := do
  let s ← expectChar '-' s
  let (s, d) ← takeDigits 3 0 s
  return (s, Date.Ordinal ⟨y, d⟩)

/-- Modelled from the spec: the basic calendar date tail YYYYMMDD. -/
def calBasic (y : Int) (s : List Char) : Except PError (List Char × Date) := do
  let (s, m) ← takeDigits 2 0 s
  let (s, d) ← takeDigits 2 0 s
  return (s, Date.YMD ⟨y, m, d⟩)

/-- Modelled from the spec: the basic week date tail YYYYWwwD. -/
def weekBasic (y : Int) (s : List Char) : Except PError (List Char × Date) := do
  let s ← expectChar 'W' s
  let (s, w) ← takeDigits 2 0 s
  let (s, d) ← takeDigits 1 0 s
  return (s, Date.Week ⟨y, w, d⟩)

/-- Modelled from the spec: the basic ordinal date tail YYYYDDD. -/
def ordBasic (y : Int) (s : List Char) : Except PError (List Char × Date) := do
  let (s, d) ← takeDigits 3 0 s
  return (s, Date.Ordinal ⟨y, d⟩)

/-- Modelled from the spec: parse::date, the date grammar entry point of
src/parse/date.rs (declared in src/parse/mod.rs line 1 but not under src).
Per spec sections 4.2 and 6 it recognizes the calendar, week and ordinal
forms, extended and basic, after an optional sign and a four-digit year,
tries the alternatives in a fixed priority order, and on success returns the
parsed value together with the unconsumed remainder: matching a prefix while
leaving trailing bytes is still a success (partial-parse contract). -/
def parseDate (s : List Char) : Except PError (List Char × Date) := do
  let (sg, s0) := parseSignOpt s
  let (s1, yr) ← takeDigits 4 0 s0
  let y := sg * yr
  orElseP (calExt y s1) (orElseP (weekExt y s1) (orElseP (ordExt y s1)
    (orElseP (calBasic y s1) (orElseP (weekBasic y s1) (ordBasic y s1)))))

/-- The FromStr adapter shape shared verbatim by the four impls of
src/lib.rs lines 58-96: run the parser, keep only the parsed value (the .1
component), silently discarding the unconsumed remainder (the .0 component),
and collapse every parser error to the unit error. -/
def fromStrVia {α : Type} (p : List Char → Except PError (List Char × α))
    (s : List Char) : Except Unit α :=
  match p s with
  | .ok x => .ok x.2
  | .error _ => .error ()

/-- impl FromStr for Date (src/lib.rs lines 58-66), with the grammar rule
modelled from the spec. -/
def dateFromStr (s : List Char) : Except Unit Date := fromStrVia parseDate s

/-- Definition following the words of the spec (sections 4.1 and 8): the ISO
week-count helper with floor division and mathematical modulus,
p(x) = (x + floor of x/4 - floor of x/100 + floor of x/400) mod 7.  Stated
with Int.fdiv and Int.emod (for the positive modulus 7, emod is the
mathematical mod); to be compared with pT, the truncating version the Rust
code computes. -/
def pFloor (x : Int) : Int := (x + x.fdiv 4 - x.fdiv 100 + x.fdiv 400).emod 7

-- Parser sanity anchors: the literal scenarios of spec section 8.

example : parseDate "1985-04-12".toList = .ok ([], Date.YMD ⟨1985, 4, 12⟩) := by rfl
example : parseDate "1985-W15-5".toList = .ok ([], Date.Week ⟨1985, 15, 5⟩) := by rfl
example : parseDate "1985-102".toList = .ok ([], Date.Ordinal ⟨1985, 102⟩) := by rfl
example : parseDate "19850412".toList = .ok ([], Date.YMD ⟨1985, 4, 12⟩) := by rfl
example : sign [45] = .ok [] (-1) := by decide
example : sign [43] = .ok [] 1 := by decide
example : sign [] = .incomplete 1 := by decide
example : sign [32] = .err [32] := by decide

-- Sanity anchors: the unit tests of src/lib.rs lines 358-460 hold in the model.

example : ymdFromWeek ⟨1985, 15, 5⟩ = some ⟨1985, 4, 12⟩ := by decide
example : ymdFromOrdinal ⟨1985, 102⟩ = some ⟨1985, 4, 12⟩ := by decide
example : weekFromYmd ⟨1985, 4, 12⟩ = some ⟨1985, 15, 5⟩ := by decide
example : weekFromYmd ⟨2023, 2, 27⟩ = some ⟨2023, 9, 1⟩ := by decide
example : weekFromOrdinal ⟨1985, 102⟩ = ⟨1985, 15, 5⟩ := by decide
example : ordinalFromYmd ⟨1985, 4, 12⟩ = some ⟨1985, 102⟩ := by decide
example : ordinalFromWeek ⟨1985, 15, 5⟩ = ⟨1985, 102⟩ := by decide
example : isValidYmd ⟨0, 13, 1⟩ = false := by decide
example : isValidYmd ⟨0, 0, 1⟩ = false := by decide
example : isValidYmd ⟨2018, 2, 29⟩ = false := by decide
example : isValidWeek ⟨2018, 53, 1⟩ = false := by decide
example : isValidOrdinal ⟨2018, 366⟩ = false := by decide
example : isValidOrdinal ⟨2020, 366⟩ = true := by decide
example : isValidLocalTime ⟨0, 1, 61, 0⟩ = false := by decide
example : isValidTime ⟨⟨0, 1, 0, 0⟩, 24 * 60⟩ = false := by decide

-- Helper lemmas.

set_option maxRecDepth 4000 in
lemma monthDayTotalLeap :
    ∀ d : Nat, d < 367 → 1 ≤ d → (monthDayFromOrdinal true d).isSome = true := by decide

set_option maxRecDepth 4000 in
lemma monthDayTotalNonLeap :
    ∀ d : Nat, d < 366 → 1 ≤ d → (monthDayFromOrdinal false d).isSome = true := by decide

lemma mapIsSome {α β : Type} (f : α → β) (o : Option α) :
    (Option.map f o).isSome = o.isSome := by cases o <;> rfl

lemma monthOffsetTotal :
    ∀ leap : Bool, ∀ m : Nat, m < 13 → 1 ≤ m → (monthOffset leap m).isSome = true := by decide

lemma monthLengthNone (leap : Bool) (m : Nat) (h : m = 0 ∨ 12 < m) :
    monthLength leap m = none := by
  unfold monthLength
  rw [if_neg (by omega), if_neg (by omega), if_neg (by omega)]

lemma wrapI16_eq (x : Int) (h1 : -32768 ≤ x) (h2 : x ≤ 32767) : wrapI16 x = x := by
  unfold wrapI16
  omega

lemma pT_eq_pFloor (x : Int) (hx : 0 ≤ x) (hx2 : x ≤ 26214) : pT x = pFloor x := by
  unfold pT pFloor
  rw [Int.tdiv_eq_ediv hx (by decide), Int.tdiv_eq_ediv hx (by decide),
    Int.tdiv_eq_ediv hx (by decide)]
  rw [wrapI16_eq (x + x / 4) (by omega) (by omega)]
  rw [wrapI16_eq (x + x / 4 - x / 100) (by omega) (by omega)]
  rw [wrapI16_eq (x + x / 4 - x / 100 + x / 400) (by omega) (by omega)]
  rw [Int.fdiv_eq_ediv x (b := 4) (by decide), Int.fdiv_eq_ediv x (b := 100) (by decide),
    Int.fdiv_eq_ediv x (b := 400) (by decide), Int.tmod_eq_emod (by omega) (by decide)]
  rfl

-- Claim theorems.

/-- C1: the round trip of the valid calendar date 1985-04-14 (a Sunday)
through WeekDate is not the identity: the Ordinal-to-Week conversion produces
weekday 0 (a value the validity predicate of the crate itself rejects) and
converting back lands on 1985-04-07.  The code drops the weekday-0-means-7
and week-rollover adjustments of the ISO week algorithm it cites, so the
round-trip closure stated by the spec fails. -/
theorem c1_sunday_roundtrip_fails :
    isValidYmd ⟨1985, 4, 14⟩ = true ∧
    weekFromYmd ⟨1985, 4, 14⟩ = some ⟨1985, 15, 0⟩ ∧
    isValidWeek ⟨1985, 15, 0⟩ = false ∧
    ymdFromWeek ⟨1985, 15, 0⟩ = some ⟨1985, 4, 7⟩ ∧
    (⟨1985, 4, 7⟩ : YmdDate) ≠ ⟨1985, 4, 14⟩ := by decide

/-- C2 counterexample: converting OrdinalDate 2018-366 (day beyond the length
of the non-leap year 2018) returns no value: the range match of From Ordinal
for YmdDate falls through to its catch-all arm, an unreachable panic, so the
conversions are not total over the representable domain. -/
theorem c2_unreachable_hit : ymdFromOrdinal ⟨2018, 366⟩ = none := by decide

/-- C2 (amended): the table-based conversions return a result whenever the
input lies in the table domain: Ordinal to YMD whenever 1 ≤ day ≤
num_days(year), YMD to Ordinal whenever 1 ≤ month ≤ 12; outside these ranges
they hit an unreachable branch (see the counterexample), while Week to
Ordinal and Ordinal to Week always return a value under the wrap-around
arithmetic they are embedded with. -/
theorem c2_total_on_table_domain (o : OrdinalDate) (y : YmdDate) :
    (1 ≤ o.day → o.day ≤ numDays o.year → (ymdFromOrdinal o).isSome = true) ∧
    (1 ≤ y.month → y.month ≤ 12 → (ordinalFromYmd y).isSome = true) := by
  constructor
  · intro h1 h2
    unfold ymdFromOrdinal
    rw [mapIsSome]
    unfold numDays at h2
    cases hl : isLeap o.year <;> rw [hl] at h2
    · exact monthDayTotalNonLeap o.day (by simp at h2; omega) h1
    · exact monthDayTotalLeap o.day (by simp at h2; omega) h1
  · intro h1 h2
    unfold ordinalFromYmd
    rw [mapIsSome]
    exact monthOffsetTotal (isLeap y.year) y.month (by omega) h1

theorem c2_witness :
    (ymdFromOrdinal ⟨2020, 366⟩).isSome = true ∧
    (ordinalFromYmd ⟨2018, 2, 5⟩).isSome = true :=
  ⟨(c2_total_on_table_domain ⟨2020, 366⟩ ⟨2018, 2, 5⟩).1 (by decide) (by decide),
   (c2_total_on_table_domain ⟨2020, 366⟩ ⟨2018, 2, 5⟩).2 (by decide) (by decide)⟩

/-- C3: the Ordinal-to-Week conversion performs no rollover at year
boundaries: ordinal day 1 of 2023 (which belongs to ISO week 52 of 2022) is
mapped to week 0, day 0 of the SAME year 2023, and ordinal day 365 of 2024
(ISO week 1 of 2025) is mapped to week 53 of 2024; both outputs are invalid
by the validity predicate of the crate itself.  The num_days-based rollover
the claim describes exists only in the Week-to-Ordinal direction
(src/lib.rs lines 339-345), not here. -/
theorem c3_no_rollover :
    weekFromOrdinal ⟨2023, 1⟩ = ⟨2023, 0, 0⟩ ∧
    isValidWeek ⟨2023, 0, 0⟩ = false ∧
    weekFromOrdinal ⟨2024, 365⟩ = ⟨2024, 53, 1⟩ ∧
    isValidWeek ⟨2024, 53, 1⟩ = false := by decide

/-- C4 counterexample: the FromStr entry point succeeds on input with
trailing bytes: the grammar consumes the prefix 1985-04-12 of the input
1985-04-12X, and the adapter discards the nonempty remainder X and succeeds,
so success does not require the grammar to match the entire input. -/
theorem c4_trailing_input_accepted :
    parseDate "1985-04-12X".toList = .ok (['X'], Date.YMD ⟨1985, 4, 12⟩) ∧
    dateFromStr "1985-04-12X".toList = .ok (Date.YMD ⟨1985, 4, 12⟩) := by
  exact ⟨by rfl, by rfl⟩

/-- C4 (amended): each FromStr entry point is the adapter fromStrVia applied
to its grammar rule: it succeeds exactly when the grammar matches a prefix of
the input, returning the parsed value and silently discarding the unconsumed
remainder (full consumption is not required), and it collapses every parser
error into the single uninformative unit error. -/
theorem c4_adapter_behaviour {α : Type} (p : List Char → Except PError (List Char × α))
    (s rest : List Char) (v : α) (e : PError) :
    (p s = .ok (rest, v) → fromStrVia p s = .ok v) ∧
    (p s = .error e → fromStrVia p s = .error ()) := by
  constructor <;> intro h <;> simp [fromStrVia, h]

theorem c4_witness : fromStrVia parseDate "1985-102".toList = .ok (Date.Ordinal ⟨1985, 102⟩) :=
  (c4_adapter_behaviour parseDate "1985-102".toList [] (Date.Ordinal ⟨1985, 102⟩)
    (.needMore 1)).1 (by rfl)

/-- C5: is_leap holds exactly for years divisible by 4 and, when divisible by
100, also by 400; with the concrete sample years of the spec.  Stated over
Int, which covers every value of the six implementing Rust year types (the
divisibility tests involve no overflow and truncating remainder zero is
exactly divisibility). -/
theorem c5_is_leap_characterisation :
    (∀ y : Int, isLeap y = true ↔ (4 ∣ y ∧ (¬(100 ∣ y) ∨ 400 ∣ y))) ∧
    isLeap 1600 = true ∧ isLeap 2000 = true ∧ isLeap 2020 = true ∧
    isLeap 1700 = false ∧ isLeap 1800 = false ∧ isLeap 1900 = false ∧
    isLeap 2018 = false ∧ isLeap 2021 = false := by
  refine ⟨fun y => ?_, by decide, by decide, by decide, by decide, by decide,
    by decide, by decide, by decide⟩
  simp [isLeap, Int.dvd_iff_tmod_eq_zero, Bool.and_eq_true, Bool.or_eq_true,
    Bool.not_eq_true']

/-- C6 counterexample: the claimed biconditional fails on both sides of the
representable i16 domain.  At year -385 the floor-arithmetic rule of the
claim gives p(-385) = 4 and hence 53 weeks, but num_weeks computes with the
Rust truncating division and remainder and returns 52; at the nonnegative
year 26376 the rule gives p(26375) = 3 and hence 53 weeks, but the running
sum inside the i16 num_weeks wraps and the code returns 52. -/
theorem c6_negative_year_diverges :
    numWeeks (-385) = 52 ∧ pFloor (-385) = 4 ∧
    numWeeks 26376 = 52 ∧ pFloor (26376 - 1) = 3 := by decide

/-- C6 (amended): for years between 0 and 26214 — the whole regime in which
the i16 running sum of p cannot overflow — the 53-week test of num_weeks
agrees with the floor-arithmetic rule p of the spec (truncating and floor
division coincide on nonnegative operands), and the two concrete week counts
of the spec hold.  Outside that regime the code diverges from the rule: for
negative years because `/` and `%` truncate, from year 26215 upward because
the i16 sum wraps (first divergent year 26376); see the counterexample. -/
theorem c6_num_weeks_iso_rule :
    (∀ y : Int, 0 ≤ y → y ≤ 26214 →
      (numWeeks y = 53 ↔ (pFloor y = 4 ∨ pFloor (y - 1) = 3))) ∧
    numWeeks 2015 = 53 ∧ numWeeks 2018 = 52 := by
  refine ⟨fun y hy hy2 => ?_, by decide, by decide⟩
  rcases eq_or_lt_of_le hy with h0 | h1
  · rw [← h0]; decide
  · unfold numWeeks
    rw [wrapI16_eq (y - 1) (by omega) (by omega),
      pT_eq_pFloor y (by omega) (by omega), pT_eq_pFloor (y - 1) (by omega) (by omega)]
    by_cases h : pFloor y = 4 ∨ pFloor (y - 1) = 3 <;> simp [h]

theorem c6_witness : numWeeks 2015 = 53 ↔ (pFloor 2015 = 4 ∨ pFloor (2015 - 1) = 3) :=
  c6_num_weeks_iso_rule.1 2015 (by decide) (by decide)

/-- C7: the validity predicates for LocalTime and Time are exactly the
claimed range conditions: hour up to 24, minute up to 59, second up to 60
(the leap second is tolerated unconditionally, 61 is rejected), nanoseconds
below one billion, and a timezone offset strictly between -1440 and 1440
minutes (offsets of exactly 24 hours in magnitude are invalid). -/
theorem c7_time_validity :
    (∀ t : LocalTime, isValidLocalTime t = true ↔
      (t.hour ≤ 24 ∧ t.minute ≤ 59 ∧ t.second ≤ 60 ∧ t.nanos < 1000000000)) ∧
    (∀ t : Time, isValidTime t = true ↔
      (isValidLocalTime t.localTime = true ∧ -1440 < t.tz_offset ∧ t.tz_offset < 1440)) ∧
    isValidLocalTime ⟨23, 59, 60, 0⟩ = true ∧
    isValidLocalTime ⟨23, 59, 61, 0⟩ = false ∧
    isValidTime ⟨⟨0, 0, 0, 0⟩, 1440⟩ = false ∧
    isValidTime ⟨⟨0, 0, 0, 0⟩, -1440⟩ = false := by
  refine ⟨fun t => ?_, fun t => ?_, by decide, by decide, by decide, by decide⟩
  · simp [isValidLocalTime, and_assoc]
  · simp [isValidTime, and_assoc]
    intro
    omega

/-- C8 counterexample: on the UTF-8 encoding of the minus sign U+2212 the
sign parser matches the first byte only (nom compares each input byte against
the UTF-8 bytes of the one_of pattern string) and returns -1 with the two
continuation bytes left as remainder, not with empty remainder as claimed. -/
theorem c8_unicode_minus_partial :
    sign [226, 136, 146] = .ok [136, 146] (-1) ∧ ([136, 146] : List Nat) ≠ [] := by decide

/-- C8 (amended): the sign parser maps ASCII minus to -1 and plus to +1 with
empty remainder and reports incomplete input (needed count 1) on empty input;
a leading byte drawn from the UTF-8 encodings of the minus/hyphen variants is
consumed alone and yields -1 (so a multi-byte Unicode minus yields -1 with
its continuation bytes unconsumed), and any other leading byte yields a
syntactic error on the whole input. -/
theorem c8_sign_behaviour :
    sign [45] = .ok [] (-1) ∧ sign [43] = .ok [] 1 ∧ sign [] = .incomplete 1 ∧
    (∀ b rest, b ∈ signBytes → sign (b :: rest) = .ok rest (-1)) ∧
    (∀ b rest, ¬(b ∈ signBytes) → b ≠ 43 → sign (b :: rest) = .err (b :: rest)) := by
  refine ⟨by decide, by decide, by decide, ?_, ?_⟩
  · intro b rest hb
    simp [sign, hb]
  · intro b rest hb hb2
    simp [sign, hb, hb2]

theorem c8_witness : sign [226] = .ok [] (-1) ∧ sign [32] = .err [32] :=
  ⟨c8_sign_behaviour.2.2.2.1 226 [] (by decide),
   c8_sign_behaviour.2.2.2.2 32 [] (by decide) (by decide)⟩

/-- C9: a YmdDate whose month is 0 or exceeds 12 is never valid: the month
match of the validity predicate reaches its catch-all arm and returns false
(and a zero day short-circuits to false before the match). -/
theorem c9_bad_month_invalid (d : YmdDate) (h : d.month = 0 ∨ 12 < d.month) :
    isValidYmd d = false := by
  unfold isValidYmd
  rw [monthLengthNone (isLeap d.year) d.month h]
  simp

theorem c9_witness : isValidYmd ⟨2018, 13, 1⟩ = false :=
  c9_bad_month_invalid ⟨2018, 13, 1⟩ (by decide)

/-- C10 counterexample: the YMD-to-Ordinal conversion applied to a month-0
input returns no value at all (it falls into the unreachable arm, a panic),
so it is not true that every conversion returns a value on every input. -/
theorem c10_month_zero_no_value : ordinalFromYmd ⟨2018, 0, 1⟩ = none := by decide

/-- C10 (amended): no conversion ever changes the year: whenever one of the
four direct conversions returns a value, its year field equals the year field
of the input; the Week-to-Ordinal and Ordinal-to-Week conversions always
return such a value, while the table conversions return none on out-of-range
inputs rather than a value with a different year. -/
theorem c10_year_preserved (o1 o2 : OrdinalDate) (y : YmdDate) (w : WeekDate) :
    ((ymdFromOrdinal o1).all fun r => r.year == o1.year) = true ∧
    ((ordinalFromYmd y).all fun r => r.year == y.year) = true ∧
    (weekFromOrdinal o2).year = o2.year ∧
    (ordinalFromWeek w).year = w.year := by
  refine ⟨?_, ?_, rfl, rfl⟩
  · unfold ymdFromOrdinal
    cases monthDayFromOrdinal (isLeap o1.year) o1.day <;> simp [Option.all]
  · unfold ordinalFromYmd
    cases monthOffset (isLeap y.year) y.month <;> simp [Option.all]

end Iso8601
